import Mathlib

/-!
Verification development for nuki3ctl, a command-line client for the Nuki
bridge HTTP/JSON API (source: src/nuki3ctl.py).

The Python source is shallowly embedded below:
  - JSON values are the inductive type JVal; Python dicts (parsed JSON
    objects) are association lists with unique keys (Obj).
  - Python truthiness of a JSON value is the Bool-valued function truthy.
  - perform_action_with_retry (lines 88-103) is embedded as a recursion
    over the remaining budget; the network is abstracted by an oracle
    assigning each attempt number its outcome (a requests.RequestException,
    modelled as AttemptResult.fail, or a parsed JSON object body).  The
    embedding records the number of attempts made and the number of
    time.sleep(1) invocations.
  - resolve_name_to_id (lines 75-86) is embedded over the outcome of the
    GET /list fetch; Python exceptions (ValueError with its message,
    KeyError) are the inductive type PyErr.
  - main (lines 105-212) is embedded as the function main over an argument
    record, a parsed config object, and a bridge oracle, returning the
    outcome together with the number of outbound HTTP requests made.
-/

set_option autoImplicit false

namespace Nuki3ctl

/-- A parsed JSON value, as produced by the Python json module / response.json(). -/
inductive JVal where
  | null
  | bool (b : Bool)
  | num (n : Int)
  | str (s : String)
  | arr (elems : List JVal)
  | obj (fields : List (String × JVal))

/-- A parsed JSON object (Python dict): association list with unique keys. -/
abbrev Obj := List (String × JVal)

/-- Python truthiness of a JSON value (None, False, 0, "", [], {} are falsy). -/
def truthy : JVal → Bool
  | .null => false
  | .bool b => b
  | .num n => n != 0
  | .str s => s != ""
  | .arr elems => !elems.isEmpty
  | .obj fields => !fields.isEmpty

/-- Python dict lookup d[k] / membership: the value stored under key k. -/
def dictGet (d : Obj) (k : String) : Option JVal :=
  match d with
  | [] => none
  | (k2, v) :: rest => if k2 = k then some v else dictGet rest k

/-- Python d.get(k): like dictGet but defaulting to None. -/
def pyGet (d : Obj) (k : String) : JVal :=
  (dictGet d k).getD .null

/-- Python comparison of a JSON value with a string (v == s): true exactly
when v is a string with the same content. -/
def pyEqStr (v : JVal) (s : String) : Bool :=
  match v with
  | .str t => t == s
  | _ => false

/-- Outcome of one HTTP attempt (requests.get + raise_for_status +
response.json(), line 94-96 of the source): either a
requests.RequestException (network error, timeout, non-2xx status or -- in
requests >= 2.27 -- a malformed JSON body), or a parsed JSON object body.
The bridge lockAction/lockState endpoints return JSON objects. -/
inductive AttemptResult where
  | fail
  | ok (body : Obj)

/-- Success policy, line 97 of the source:
last_resp.get("success", False) or "state" in last_resp. -/
def judge (body : Obj) : Bool :=
  truthy ((dictGet body "success").getD (.bool false)) || (dictGet body "state").isSome

/-- Whether one attempt is judged successful: a transport/protocol failure
never is; a parsed body is successful iff the success policy accepts it. -/
def attemptSucceeds : AttemptResult → Bool
  | .fail => false
  | .ok body => judge body

/-- Observable outcome of perform_action_with_retry: the returned pair
(success, last_resp) plus the number of attempts made (requests.get calls)
and the number of time.sleep(1) invocations. -/
structure RetryResult where
  success : Bool
  last_resp : Option Obj
  attempts : Nat
  sleeps : Nat

/-- The for-loop of perform_action_with_retry (lines 92-102): n is the
remaining budget, i the current attempt number, last the current value of
last_resp.  On a RequestException the loop prints and falls through to
time.sleep(1); on a parsed body it sets last_resp, breaks if the success
policy accepts it, and otherwise also falls through to time.sleep(1) --
the sleep is inside the loop body, after the try/except, so it runs on
every iteration that does not break. -/
def retryLoop (op : Nat → AttemptResult) : Nat → Nat → Option Obj → RetryResult
  | 0, _, last => ⟨false, last, 0, 0⟩
  | n + 1, i, last =>
    match op i with
    | .fail =>
      let r := retryLoop op n (i + 1) last
      ⟨r.success, r.last_resp, r.attempts + 1, r.sleeps + 1⟩
    | .ok body =>
      if judge body then ⟨true, some body, 1, 0⟩
      else
        let r := retryLoop op n (i + 1) (some body)
        ⟨r.success, r.last_resp, r.attempts + 1, r.sleeps + 1⟩

/-- perform_action_with_retry (lines 88-103): success and last_resp start
as False / None and the loop runs attempts 1 .. retry_count.  The oracle op
gives the outcome of each attempt. -/
def perform_action_with_retry (op : Nat → AttemptResult) (retry_count : Nat) : RetryResult :=
  retryLoop op retry_count 1 none

/-- The value of last_resp after scanning attempts i, i+1, ..., i+n-1 in
order, starting from last: each attempt that yields a parsed body replaces
the remembered value; transport failures leave it unchanged.  This is the
"last obtained response" of spec section 4.3. -/
def lastObtained (op : Nat → AttemptResult) : Nat → Nat → Option Obj → Option Obj
  | 0, _, last => last
  | n + 1, i, last =>
    match op i with
    | .fail => lastObtained op n (i + 1) last
    | .ok body => lastObtained op n (i + 1) (some body)

/-- If every attempt in the window i .. i+n-1 fails the success policy, the
loop exhausts the budget: n attempts, n sleeps, success = false, and
last_resp is the last body obtained in the window. -/
theorem retryLoop_exhaust (op : Nat → AttemptResult) :
    ∀ n i last, (∀ j, i ≤ j → j < i + n → attemptSucceeds (op j) = false) →
      retryLoop op n i last = ⟨false, lastObtained op n i last, n, n⟩ := by
  intro n
  induction n with
  | zero => intro i last _; rfl
  | succ m ih =>
    intro i last hfail
    have hi : attemptSucceeds (op i) = false := hfail i (le_refl i) (by omega)
    have hrest : ∀ j, i + 1 ≤ j → j < (i + 1) + m → attemptSucceeds (op j) = false := by
      intro j h1 h2
      exact hfail j (by omega) (by omega)
    cases hop : op i with
    | fail =>
      simp only [retryLoop, hop, ih (i + 1) last hrest, lastObtained]
    | ok body =>
      have hj : judge body = false := by
        have := hi
        rw [hop] at this
        exact this
      simp only [retryLoop, hop, hj, if_false, ih (i + 1) (some body) hrest,
        lastObtained, Bool.false_eq_true]

/-- If the attempts at offsets 0 .. m-1 from i all fail the success policy
and the attempt at offset m yields a body accepted by the policy, the loop
stops there: m+1 attempts, m sleeps, success = true, last_resp that body. -/
theorem retryLoop_firstSuccess (op : Nat → AttemptResult) (body : Obj) :
    ∀ m n i last, m < n →
      (∀ j, j < m → attemptSucceeds (op (i + j)) = false) →
      op (i + m) = .ok body → judge body = true →
      retryLoop op n i last = ⟨true, some body, m + 1, m⟩ := by
  intro m
  induction m with
  | zero =>
    intro n i last hmn _ hok hj
    obtain ⟨n', rfl⟩ : ∃ n', n = n' + 1 := ⟨n - 1, by omega⟩
    have hi : op i = .ok body := by simpa using hok
    simp only [retryLoop, hi, hj, if_true]
  | succ m ih =>
    intro n i last hmn hpre hok hj
    obtain ⟨n', rfl⟩ : ∃ n', n = n' + 1 := ⟨n - 1, by omega⟩
    have hi : attemptSucceeds (op i) = false := by simpa using hpre 0 (by omega)
    have hpre' : ∀ j, j < m → attemptSucceeds (op (i + 1 + j)) = false := by
      intro j hjm
      have := hpre (j + 1) (by omega)
      simpa [Nat.add_assoc, Nat.add_comm 1 j] using this
    have hok' : op (i + 1 + m) = .ok body := by
      have : i + 1 + m = i + (m + 1) := by omega
      rw [this]; exact hok
    have hrec := ih n' (i + 1) ?last (by omega) hpre' hok' hj
    case last => exact last
    cases hop : op i with
    | fail =>
      rw [retryLoop, hop]
      simp only [hrec]
    | ok b2 =>
      have hj2 : judge b2 = false := by
        have := hi
        rw [hop] at this
        exact this
      rw [retryLoop, hop]
      simp only [hj2, Bool.false_eq_true, if_false]
      have hrec2 := ih n' (i + 1) (some b2) (by omega) hpre' hok' hj
      simp only [hrec2]

/-- Bookkeeping invariant of the loop: the sleep at the end of the body
runs on every iteration except the one that breaks, so the sleep count
plus one (when the run succeeded) equals the attempt count. -/
theorem retryLoop_sleeps_attempts (op : Nat → AttemptResult) :
    ∀ n i last, (retryLoop op n i last).sleeps +
      (if (retryLoop op n i last).success then 1 else 0) =
      (retryLoop op n i last).attempts := by
  intro n
  induction n with
  | zero => intro i last; rfl
  | succ m ih =>
    intro i last
    cases hop : op i with
    | fail =>
      have := ih (i + 1) last
      simp only [retryLoop, hop]
      omega
    | ok body =>
      by_cases hj : judge body
      · simp only [retryLoop, hop, hj, if_true]
      · have := ih (i + 1) (some body)
        simp only [retryLoop, hop, hj, Bool.false_eq_true, if_false]
        omega

/-- A Python exception as observed by the callers of resolve_name_to_id:
a ValueError carrying its message, or a KeyError carrying the missing key
(raised by the subscript device["nukiId"]). -/
inductive PyErr where
  | valueError (msg : String)
  | keyError (key : String)

/-- The ValueError message raised on a name-resolution miss (line 84). -/
def notFoundMsg (device_name : String) : String :=
  "No device found with name \x27" ++ device_name ++ "\x27."

/-- The ValueError message raised when the /list fetch fails (line 86);
e is the text of the caught requests.RequestException. -/
def fetchErrMsg (e : String) : String :=
  "Error fetching device list for name resolution: " ++ e

/-- The scan of lines 81-84: iterate over the device list in order; on the
first device whose name equals device_name, return device["nukiId"]
(a KeyError if absent); if none matches, raise the not-found ValueError.
Python compares device.get("name") (None when absent) with the string. -/
def resolveScan (devices : List Obj) (device_name : String) : Except PyErr JVal :=
  match devices with
  | [] => .error (.valueError (notFoundMsg device_name))
  | d :: rest =>
    if pyEqStr (pyGet d "name") device_name then
      match dictGet d "nukiId" with
      | some v => .ok v
      | none => .error (.keyError "nukiId")
    else resolveScan rest device_name

/-- Outcome of the GET /list request (line 78-80): a
requests.RequestException with message e, or a parsed JSON array of
device objects. -/
inductive FetchResult where
  | exn (e : String)
  | ok (devices : List Obj)

/-- resolve_name_to_id (lines 75-86) over the outcome of the /list fetch:
a RequestException is caught and re-raised as a ValueError wrapping its
message; the not-found ValueError and any KeyError are not caught by the
except clause (it only catches requests.RequestException) and propagate
unchanged. -/
def resolve_name_to_id (fetch : FetchResult) (device_name : String) : Except PyErr JVal :=
  match fetch with
  | .exn e => .error (.valueError (fetchErrMsg e))
  | .ok devices => resolveScan devices device_name

/-- The CLI action keyword (argparse choices, line 117).  the Python keyword-like action name open
is a Lean keyword, hence the trailing underscore. -/
inductive Action where
  | open_
  | close
  | status
  | list
  | info
  | openall
  | closeall
deriving DecidableEq

/-- Parsed command-line arguments (argparse, lines 112-119): each flag is
None when not given; retry is parsed with type=int. -/
structure Args where
  ip : Option String
  token : Option String
  nukiid : Option String
  name : Option String
  retry : Option Int
  action : Option Action

/-- Lift an argparse string option to a JSON-like value (None or str). -/
def optJ : Option String → JVal
  | some s => .str s
  | none => .null

/-- The Python expression x or y on JSON-like values: y when x is falsy, else x. -/
def pyOr (a b : JVal) : JVal :=
  if truthy a then a else b

/-- config.get(k): value from the parsed config.json object, None if absent. -/
def cfgGet (cfg : Obj) (k : String) : JVal :=
  (dictGet cfg k).getD .null

/-- retry = args.retry or config.get("retry", 3) (line 126): argparse gives
an int or None; 0 is falsy, so args.retry == 0 falls back to the config
value; the config default is 3.  A non-numeric config value would make
range(1, retry+1) raise a TypeError before any attempt is made; it is
modelled as a budget of 0 (no attempt happens either way). -/
def resolveRetry (argsRetry : Option Int) (cfg : Obj) : Int :=
  let cfgVal : JVal := (dictGet cfg "retry").getD (.num 3)
  let cfgInt : Int := match cfgVal with | .num n => n | _ => 0
  match argsRetry with
  | some r => if r = 0 then cfgInt else r
  | none => cfgInt

/-- args.action membership test for open, close and status (line 144). -/
def devAction : Option Action → Bool
  | some .open_ => true
  | some .close => true
  | some .status => true
  | _ => false

/-- Truthiness of an argparse string option (None and "" are falsy). -/
def optTruthy : Option String → Bool
  | some s => s != ""
  | none => false

/-- The parser.error message of the pre-flight credential check (line 139). -/
def preflightMsg : String :=
  "IP and token are required (via flags or config.json)."

/-- The parser.error message of the missing-device-target check (line 152). -/
def missingIdMsg : String :=
  "Nuki ID or name is required for this action (via -id, --name, or config.json)."

/-- How one invocation of main terminates: parser.error (argparse prints
the message and exits), an uncaught Python exception, or a normal return. -/
inductive Outcome where
  | usageError (msg : String)
  | crash (msg : String)
  | completed

/-- Observable result of one invocation of main: how it terminated, how
many outbound HTTP requests were made, the per-device
(nukiId, success, attempts) outcomes of a bulk action, and the
(success, last_resp) pair of a single-device action. -/
structure RunResult where
  outcome : Outcome
  calls : Nat
  bulk : List (JVal × Bool × Nat)
  single : Option (Bool × Option Obj)

/-- The network as seen by one invocation of main: the outcome of a
GET /list fetch, and an oracle giving the outcome of the k-th
lockAction/lockState attempt of the run (0-based; URL construction is
modelled separately, see the Url definitions). -/
structure Bridge where
  listResult : FetchResult
  attempt : Nat → AttemptResult

/-- The loop of the openall/closeall branch (lines 182-190): for each
device in the order returned by /list, read device["nukiId"] (an uncaught
KeyError aborts the whole run -- it is not a requests.RequestException),
then run the retry-wrapped lockAction call; the loop continues to the next
device whatever the outcome of the previous one.  k counts the attempts
already consumed, so device attempts use fresh oracle indices; calls is
1 (the /list fetch) plus all attempts. -/
def bulkLoop (br : Bridge) (retry : Nat) :
    List Obj → Nat → List (JVal × Bool × Nat) → RunResult
  | [], k, acc => ⟨.completed, 1 + k, acc, none⟩
  | d :: rest, k, acc =>
    match dictGet d "nukiId" with
    | none => ⟨.crash "KeyError: nukiId", 1 + k, acc, none⟩
    | some id =>
      let r := perform_action_with_retry (fun i => br.attempt (k + (i - 1))) retry
      bulkLoop br retry rest (k + r.attempts) (acc ++ [(id, r.success, r.attempts)])

/-- The single-device tail of main (lines 195-212): one retry-wrapped call;
both the success and the failure branch just print, so the run completes
either way.  calls0 counts the requests already made (a name-resolution
/list fetch). -/
def runSingle (retry : Nat) (br : Bridge) (calls0 : Nat) : RunResult :=
  let r := perform_action_with_retry (fun i => br.attempt (i - 1)) retry
  ⟨.completed, calls0 + r.attempts, [], some (r.success, r.last_resp)⟩

/-- The non-device-specific branches of main: list (lines 154-163) and
info (lines 165-172) make one unretried request and complete whatever its
outcome; openall/closeall (lines 174-193) fetch the list (on a
RequestException the branch prints and completes) and then run bulkLoop.
When no action was given (argparse nargs is optional), control falls
through to the single-device tail with url = None; requests.get(None)
raises MissingSchema -- a RequestException -- before opening any
connection, so every attempt fails and no outbound request is made. -/
def runOther (action : Option Action) (retry : Nat) (br : Bridge) : RunResult :=
  match action with
  | some .list => ⟨.completed, 1, [], none⟩
  | some .info => ⟨.completed, 1, [], none⟩
  | some .openall =>
    match br.listResult with
    | .exn _ => ⟨.completed, 1, [], none⟩
    | .ok devices => bulkLoop br retry devices 0 []
  | some .closeall =>
    match br.listResult with
    | .exn _ => ⟨.completed, 1, [], none⟩
    | .ok devices => bulkLoop br retry devices 0 []
  | _ =>
    let r := perform_action_with_retry (fun _ => .fail) retry
    ⟨.completed, 0, [], some (r.success, r.last_resp)⟩

/-- main (lines 105-212), over the parsed arguments, the parsed config.json
object and the bridge oracle.  Credentials resolve as flag-or-config
(lines 123-126); the pre-flight check of line 138 fires before any request
is made; for open/close/status the device id resolves as explicit id, else
by name via resolve_name_to_id (one /list request, line 145-150, whose
ValueError is turned into parser.error), else the configured default, and
a falsy id is a usage error (line 151-152); then control dispatches to the
action branches. -/
def main (args : Args) (cfg : Obj) (br : Bridge) : RunResult :=
  let nuki_ip := pyOr (optJ args.ip) (cfgGet cfg "ip")
  let nuki_token := pyOr (optJ args.token) (cfgGet cfg "token")
  let nuki_id0 := pyOr (optJ args.nukiid) (cfgGet cfg "nukiId")
  let retry := (resolveRetry args.retry cfg).toNat
  if !truthy nuki_ip || !truthy nuki_token then
    ⟨.usageError preflightMsg, 0, [], none⟩
  else
    if devAction args.action then
      if !optTruthy args.nukiid && optTruthy args.name then
        match resolve_name_to_id br.listResult (args.name.getD "") with
        | .error (.valueError m) => ⟨.usageError m, 1, [], none⟩
        | .error (.keyError k) => ⟨.crash ("KeyError: " ++ k), 1, [], none⟩
        | .ok v =>
          if !truthy v then ⟨.usageError missingIdMsg, 1, [], none⟩
          else runSingle retry br 1
      else
        if !truthy nuki_id0 then ⟨.usageError missingIdMsg, 0, [], none⟩
        else runSingle retry br 0
    else
      runOther args.action retry br

/-- base_url (line 141): http://<address>:8080. -/
def base_url (nuki_ip : String) : String :=
  "http://" ++ nuki_ip ++ ":8080"

/-- The unlock URL (line 199, and line 185 with action_num = 1). -/
def openUrl (b nuki_id token : String) : String :=
  b ++ "/lockAction?nukiId=" ++ nuki_id ++ "&action=1&token=" ++ token ++ "&deviceType=4"

/-- The lock URL (line 202, and line 185 with action_num = 2). -/
def closeUrl (b nuki_id token : String) : String :=
  b ++ "/lockAction?nukiId=" ++ nuki_id ++ "&action=2&token=" ++ token ++ "&deviceType=4"

/-- The status URL (line 205). -/
def statusUrl (b nuki_id token : String) : String :=
  b ++ "/lockState?nukiId=" ++ nuki_id ++ "&token=" ++ token ++ "&deviceType=4"

/-- Modelled from the spec (section 6): a request as a path plus ordered
query parameters. -/
structure SpecRequest where
  path : String
  params : List (String × String)

/-- Join query parameters with the standard key=value and ampersand form. -/
def joinParams : List (String × String) → String
  | [] => ""
  | [p] => p.1 ++ "=" ++ p.2
  | p :: q :: rest => p.1 ++ "=" ++ p.2 ++ "&" ++ joinParams (q :: rest)

/-- Render a SpecRequest against a base URL. -/
def renderRequest (b : String) (r : SpecRequest) : String :=
  b ++ r.path ++ "?" ++ joinParams r.params

/-- Modelled from the spec (section 6): the unlock request row of the
endpoint table. -/
def specUnlockReq (nuki_id token : String) : SpecRequest :=
  ⟨"/lockAction", [("nukiId", nuki_id), ("action", "1"), ("token", token), ("deviceType", "4")]⟩

/-- Modelled from the spec (section 6): the lock request row. -/
def specLockReq (nuki_id token : String) : SpecRequest :=
  ⟨"/lockAction", [("nukiId", nuki_id), ("action", "2"), ("token", token), ("deviceType", "4")]⟩

/-- Modelled from the spec (section 6): the lockState request row. -/
def specStatusReq (nuki_id token : String) : SpecRequest :=
  ⟨"/lockState", [("nukiId", nuki_id), ("token", token), ("deviceType", "4")]⟩

/-- If every op in the window i .. i+n-1 is a transport failure, no body is
ever obtained, so the scan of the window keeps the initial None. -/
theorem lastObtained_of_allFail (op : Nat → AttemptResult) :
    ∀ n i, (∀ j, i ≤ j → j < i + n → op j = .fail) →
      lastObtained op n i none = none := by
  intro n
  induction n with
  | zero => intro i _; rfl
  | succ m ih =>
    intro i h
    rw [lastObtained, h i (le_refl i) (by omega)]
    exact ih (i + 1) (fun j h1 h2 => h j (by omega) (by omega))

/-- C1, as stated, is false: with retry budget N = 1 and an operation that
always fails, perform_action_with_retry does return succeeded = false after
exactly 1 attempt, but the one-second delay is invoked once, not N - 1 = 0
times -- time.sleep(1) sits at the end of the loop body, after the
try/except, so it also runs after the final failed attempt. -/
theorem c1_counterexample :
    (perform_action_with_retry (fun _ => .fail) 1).success = false ∧
    (perform_action_with_retry (fun _ => .fail) 1).attempts = 1 ∧
    (perform_action_with_retry (fun _ => .fail) 1).sleeps = 1 ∧
    ¬ (perform_action_with_retry (fun _ => .fail) 1).sleeps = 1 - 1 := by
  refine ⟨rfl, rfl, rfl, ?_⟩
  decide

/-- C1 (amended): for every retry budget N >= 1, if every attempt of the
underlying operation fails, perform_action_with_retry returns
succeeded = false after making exactly N attempts, and the fixed
one-time-unit delay is invoked exactly N times (the delay also runs after
the final attempt). -/
theorem c1_exhaustion_attempts_and_delays (op : Nat → AttemptResult) (N : Nat)
    (hN : 1 ≤ N) (hfail : ∀ j, 1 ≤ j → j ≤ N → attemptSucceeds (op j) = false) :
    (perform_action_with_retry op N).success = false ∧
    (perform_action_with_retry op N).attempts = N ∧
    (perform_action_with_retry op N).sleeps = N := by
  have h := retryLoop_exhaust op N 1 none (fun j h1 h2 => hfail j h1 (by omega))
  rw [perform_action_with_retry, h]
  exact ⟨rfl, rfl, rfl⟩

/-- Witness for the amended C1 at N = 2 with an always-failing operation. -/
theorem c1_exhaustion_attempts_and_delays_witness :
    (perform_action_with_retry (fun _ => .fail) 2).success = false ∧
    (perform_action_with_retry (fun _ => .fail) 2).attempts = 2 ∧
    (perform_action_with_retry (fun _ => .fail) 2).sleeps = 2 :=
  c1_exhaustion_attempts_and_delays (fun _ => .fail) 2 (by decide)
    (fun _ _ _ => rfl)

/-- C10: the delay runs after every attempt that is not judged successful,
including an attempt whose HTTP call succeeded but whose body failed the
success policy and including the final attempt: on full exhaustion with
budget N the delay is invoked exactly N times, and in every run only a
successful attempt skips the delay (sleeps + 1 = attempts when the run
succeeded, sleeps = attempts otherwise). -/
theorem c10_delay_after_every_unsuccessful_attempt :
    (∀ (op : Nat → AttemptResult) (N : Nat), 1 ≤ N →
      (∀ j, 1 ≤ j → j ≤ N → attemptSucceeds (op j) = false) →
      (perform_action_with_retry op N).sleeps = N) ∧
    (∀ (op : Nat → AttemptResult) (N : Nat),
      (perform_action_with_retry op N).sleeps +
        (if (perform_action_with_retry op N).success then 1 else 0) =
      (perform_action_with_retry op N).attempts) := by
  constructor
  · intro op N _ hfail
    have h := retryLoop_exhaust op N 1 none (fun j h1 h2 => hfail j h1 (by omega))
    rw [perform_action_with_retry, h]
  · intro op N
    exact retryLoop_sleeps_attempts op N 1 none

/-- Witness for C10: two attempts whose HTTP calls succeed with body
success = false exhaust a budget of 2 with two delays. -/
theorem c10_delay_after_every_unsuccessful_attempt_witness :
    (perform_action_with_retry (fun _ => .ok [("success", .bool false)]) 2).sleeps = 2 :=
  c10_delay_after_every_unsuccessful_attempt.1
    (fun _ => .ok [("success", .bool false)]) 2 (by decide) (fun _ _ _ => rfl)

/-- C3: if attempts 1 .. k-1 are not judged successful and attempt k is
(k <= N), perform_action_with_retry stops at attempt k: exactly k attempts,
exactly k - 1 delays (none after the success), succeeded = true, and the
response of attempt k is returned. -/
theorem c3_stops_at_first_success (op : Nat → AttemptResult) (N k : Nat) (body : Obj)
    (hk1 : 1 ≤ k) (hkN : k ≤ N)
    (hpre : ∀ j, 1 ≤ j → j < k → attemptSucceeds (op j) = false)
    (hok : op k = .ok body) (hj : judge body = true) :
    perform_action_with_retry op N = ⟨true, some body, k, k - 1⟩ := by
  have hk : 1 + (k - 1) = k := by omega
  have h := retryLoop_firstSuccess op body (k - 1) N 1 none (by omega)
    (fun j hjlt => hpre (1 + j) (by omega) (by omega))
    (by rw [hk]; exact hok) hj
  rw [perform_action_with_retry, h]
  have hk2 : k - 1 + 1 = k := by omega
  rw [hk2]

/-- Witness for C3: a single immediately-successful attempt under budget 1. -/
theorem c3_stops_at_first_success_witness :
    perform_action_with_retry (fun _ => .ok [("success", .bool true)]) 1 =
      ⟨true, some [("success", .bool true)], 1, 0⟩ :=
  c3_stops_at_first_success (fun _ => .ok [("success", .bool true)]) 1 1
    [("success", .bool true)] (le_refl 1) (le_refl 1)
    (fun j h1 h2 => absurd h2 (by omega)) rfl rfl

/-- C7, as stated, is false: when the single attempt of a budget of 1 fails
at the transport layer, perform_action_with_retry returns succeeded = false
together with last_resp = None -- the caller has an empty result, not a
non-empty one. -/
theorem c7_counterexample :
    (perform_action_with_retry (fun _ => .fail) 1).success = false ∧
    (perform_action_with_retry (fun _ => .fail) 1).last_resp = none :=
  ⟨rfl, rfl⟩

/-- C7 (amended): on exhaustion perform_action_with_retry returns
succeeded = false alongside the last parsed response obtained across the
attempts; when no attempt produced a parsed body (every attempt failed at
the transport/protocol layer), that value is None, not a non-empty
result. -/
theorem c7_returns_last_obtained_response (op : Nat → AttemptResult) (N : Nat)
    (hN : 1 ≤ N) (hfail : ∀ j, 1 ≤ j → j ≤ N → attemptSucceeds (op j) = false) :
    (perform_action_with_retry op N).success = false ∧
    (perform_action_with_retry op N).last_resp = lastObtained op N 1 none ∧
    ((∀ j, 1 ≤ j → j ≤ N → op j = .fail) →
      (perform_action_with_retry op N).last_resp = none) := by
  have h := retryLoop_exhaust op N 1 none (fun j h1 h2 => hfail j h1 (by omega))
  rw [perform_action_with_retry, h]
  refine ⟨rfl, rfl, ?_⟩
  intro hall
  exact lastObtained_of_allFail op N 1 (fun j h1 h2 => hall j h1 (by omega))

/-- Witness for the amended C7: two transport failures under budget 2
return success = false and the scanned last response. -/
theorem c7_returns_last_obtained_response_witness :
    (perform_action_with_retry (fun _ => .fail) 2).success = false ∧
    (perform_action_with_retry (fun _ => .fail) 2).last_resp =
      lastObtained (fun _ => .fail) 2 1 none :=
  ⟨(c7_returns_last_obtained_response (fun _ => .fail) 2 (by decide)
      (fun _ _ _ => rfl)).1,
   (c7_returns_last_obtained_response (fun _ => .fail) 2 (by decide)
      (fun _ _ _ => rfl)).2.1⟩

/-- C2: a parsed body whose success key holds true is judged successful; a
body with success = false and no state key is judged a non-terminal failure
and, fed to every attempt, exhausts the whole budget N; a body with a state
key and no success key is judged successful. -/
theorem c2_success_policy (N : Nat) (hN : 1 ≤ N) :
    (∀ body : Obj, dictGet body "success" = some (.bool true) → judge body = true) ∧
    (∀ body : Obj, dictGet body "success" = some (.bool false) →
      dictGet body "state" = none →
      judge body = false ∧
      (perform_action_with_retry (fun _ => .ok body) N).success = false ∧
      (perform_action_with_retry (fun _ => .ok body) N).attempts = N) ∧
    (∀ body : Obj, dictGet body "success" = none → (dictGet body "state").isSome →
      judge body = true) := by
  refine ⟨?_, ?_, ?_⟩
  · intro body h
    simp [judge, h, truthy]
  · intro body hs hst
    have hj : judge body = false := by simp [judge, hs, hst, truthy]
    have h := retryLoop_exhaust (fun _ => AttemptResult.ok body) N 1 none
      (fun j _ _ => hj)
    rw [perform_action_with_retry] at *
    rw [h]
    exact ⟨hj, rfl, rfl⟩
  · intro body hs hst
    simp [judge, hst]

/-- Witness for C2 at budget 1 on the three concrete bodies of the spec. -/
theorem c2_success_policy_witness :
    judge [("success", .bool true)] = true ∧
    judge [("success", .bool false)] = false ∧
    (perform_action_with_retry (fun _ => .ok [("success", .bool false)]) 1).attempts = 1 ∧
    judge [("state", .num 1)] = true :=
  ⟨(c2_success_policy 1 (by decide)).1 [("success", .bool true)] rfl,
   ((c2_success_policy 1 (by decide)).2.1 [("success", .bool false)] rfl rfl).1,
   ((c2_success_policy 1 (by decide)).2.1 [("success", .bool false)] rfl rfl).2.2,
   (c2_success_policy 1 (by decide)).2.2 [("state", .num 1)] rfl rfl⟩

/-- The list of the spec example for the resolver: two devices named Front
with ids 1 and 3 around one named Back with id 2. -/
def frontBackFront : List Obj :=
  [[("name", .str "Front"), ("nukiId", .num 1)],
   [("name", .str "Back"), ("nukiId", .num 2)],
   [("name", .str "Front"), ("nukiId", .num 3)]]

/-- C4: resolve_name_to_id scans the fetched list in order.  On the spec
example it returns 1 (the first Front), never 3; on a list with no matching
name it fails with the not-found ValueError; and in general, when the
devices before d do not match and d does, it returns d:s nukiId. -/
theorem c4_first_match_and_not_found :
    resolve_name_to_id (.ok frontBackFront) "Front" = .ok (.num 1) ∧
    (∀ (devices : List Obj) (name : String),
      (∀ d ∈ devices, pyEqStr (pyGet d "name") name = false) →
      resolve_name_to_id (.ok devices) name =
        .error (.valueError (notFoundMsg name))) ∧
    (∀ (pre : List Obj) (d : Obj) (post : List Obj) (name : String) (v : JVal),
      (∀ d2 ∈ pre, pyEqStr (pyGet d2 "name") name = false) →
      pyEqStr (pyGet d "name") name = true →
      dictGet d "nukiId" = some v →
      resolve_name_to_id (.ok (pre ++ d :: post)) name = .ok v) := by
  refine ⟨rfl, ?_, ?_⟩
  · intro devices name h
    induction devices with
    | nil => rfl
    | cons d rest ih =>
      have hd : pyEqStr (pyGet d "name") name = false :=
        h d (List.mem_cons_self d rest)
      show resolveScan (d :: rest) name = _
      rw [resolveScan, hd]
      simp only [Bool.false_eq_true, if_false]
      exact ih (fun d2 hd2 => h d2 (List.mem_cons_of_mem d hd2))
  · intro pre d post name v hpre hd hv
    induction pre with
    | nil =>
      show resolveScan (d :: post) name = _
      rw [resolveScan, hd, hv]
      simp
    | cons d2 rest ih =>
      have h2 : pyEqStr (pyGet d2 "name") name = false :=
        hpre d2 (List.mem_cons_self d2 rest)
      show resolveScan (d2 :: (rest ++ d :: post)) name = _
      rw [resolveScan, h2]
      simp only [Bool.false_eq_true, if_false]
      exact ih (fun x hx => hpre x (List.mem_cons_of_mem d2 hx))

/-- Witness for C4: the empty list resolves nothing. -/
theorem c4_first_match_and_not_found_witness :
    resolve_name_to_id (.ok []) "Front" =
      .error (.valueError (notFoundMsg "Front")) :=
  c4_first_match_and_not_found.2.1 [] "Front" (by simp)

/-- C8: when the /list fetch fails with a RequestException, the resolver
fails with the wrapping ValueError that carries the fetch error, and for no
device name is that error equal to the not-found ValueError (the two
messages differ). -/
theorem c8_fetch_error_propagates (e device_name : String) :
    resolve_name_to_id (.exn e) device_name =
      .error (.valueError (fetchErrMsg e)) ∧
    ∀ n : String, PyErr.valueError (fetchErrMsg e) ≠ PyErr.valueError (notFoundMsg n) := by
  refine ⟨rfl, ?_⟩
  intro n h
  have h2 : fetchErrMsg e = notFoundMsg n := by injection h
  have h3 := congrArg String.data h2
  rw [fetchErrMsg, notFoundMsg, String.data_append, String.data_append,
    String.data_append] at h3
  have hE : ("Error fetching device list for name resolution: " : String).data =
      'E' :: ("rror fetching device list for name resolution: " : String).data := rfl
  have hN : ("No device found with name \x27" : String).data =
      'N' :: ("o device found with name \x27" : String).data := rfl
  rw [hE, hN] at h3
  simp only [List.cons_append] at h3
  have h5 : ('E' : Char) = 'N' := by injection h3
  exact absurd h5 (by decide)

/-- Witness for C8 at a concrete fetch error and name. -/
theorem c8_fetch_error_propagates_witness :
    resolve_name_to_id (.exn "timeout") "Front" =
      .error (.valueError (fetchErrMsg "timeout")) :=
  (c8_fetch_error_propagates "timeout" "Front").1

/-- C9: for every resolved address, token and device id, the URLs built by
main render exactly the endpoint table of the spec -- unlock goes to
/lockAction with nukiId, action=1, token, deviceType=4; lock to /lockAction
with action=2; status to /lockState with nukiId, token, deviceType=4 --
each carries the token as a query parameter, and the base is
http://<address>:8080. -/
theorem c9_request_construction (ip nuki_id token : String) :
    openUrl (base_url ip) nuki_id token =
      renderRequest (base_url ip) (specUnlockReq nuki_id token) ∧
    closeUrl (base_url ip) nuki_id token =
      renderRequest (base_url ip) (specLockReq nuki_id token) ∧
    statusUrl (base_url ip) nuki_id token =
      renderRequest (base_url ip) (specStatusReq nuki_id token) ∧
    ("token", token) ∈ (specUnlockReq nuki_id token).params ∧
    ("token", token) ∈ (specLockReq nuki_id token).params ∧
    ("token", token) ∈ (specStatusReq nuki_id token).params ∧
    base_url ip = "http://" ++ ip ++ ":8080" := by
  refine ⟨?_, ?_, ?_, ?_, ?_, ?_, rfl⟩
  · apply String.ext
    simp [openUrl, renderRequest, specUnlockReq, joinParams, String.data_append]
  · apply String.ext
    simp [closeUrl, renderRequest, specLockReq, joinParams, String.data_append]
  · apply String.ext
    simp [statusUrl, renderRequest, specStatusReq, joinParams, String.data_append]
  · simp [specUnlockReq]
  · simp [specLockReq]
  · simp [specStatusReq]

/-- Witness for C9 at a concrete address, id and token. -/
theorem c9_request_construction_witness :
    openUrl (base_url "192.168.0.2") "42" "tkn" =
      renderRequest (base_url "192.168.0.2") (specUnlockReq "42" "tkn") :=
  (c9_request_construction "192.168.0.2" "42" "tkn").1

/-- C6: when the bridge address or the token is absent from both the flags
and the configuration, main stops with the pre-flight parser.error of line
139 and the number of outbound requests made is zero. -/
theorem c6_preflight_no_network (args : Args) (cfg : Obj) (br : Bridge)
    (h : (args.ip = none ∧ dictGet cfg "ip" = none) ∨
         (args.token = none ∧ dictGet cfg "token" = none)) :
    (main args cfg br).outcome = .usageError preflightMsg ∧
    (main args cfg br).calls = 0 := by
  have hcond : (!truthy (pyOr (optJ args.ip) (cfgGet cfg "ip")) ||
      !truthy (pyOr (optJ args.token) (cfgGet cfg "token"))) = true := by
    rcases h with ⟨h1, h2⟩ | ⟨h1, h2⟩
    · rw [h1]
      simp [optJ, cfgGet, h2, pyOr, truthy]
    · rw [h1]
      simp [optJ, cfgGet, h2, pyOr, truthy]
  have hrun : main args cfg br = ⟨.usageError preflightMsg, 0, [], none⟩ := by
    rw [main]
    simp only [hcond, if_true]
  rw [hrun]
  exact ⟨rfl, rfl⟩

/-- Witness for C6: no flags, empty configuration, a live bridge oracle. -/
theorem c6_preflight_no_network_witness :
    (main ⟨none, none, none, none, none, some .open_⟩ []
      ⟨.ok [], fun _ => .fail⟩).outcome = .usageError preflightMsg ∧
    (main ⟨none, none, none, none, none, some .open_⟩ []
      ⟨.ok [], fun _ => .fail⟩).calls = 0 :=
  c6_preflight_no_network ⟨none, none, none, none, none, some .open_⟩ []
    ⟨.ok [], fun _ => .fail⟩ (Or.inl ⟨rfl, rfl⟩)

/-- One step of the bulk loop on a device that has a nukiId. -/
theorem bulkLoop_cons (br : Bridge) (retry : Nat) (d : Obj) (rest : List Obj)
    (k : Nat) (acc : List (JVal × Bool × Nat)) (id : JVal)
    (hid : dictGet d "nukiId" = some id) :
    bulkLoop br retry (d :: rest) k acc =
      bulkLoop br retry rest
        (k + (perform_action_with_retry (fun i => br.attempt (k + (i - 1))) retry).attempts)
        (acc ++ [(id,
          (perform_action_with_retry (fun i => br.attempt (k + (i - 1))) retry).success,
          (perform_action_with_retry (fun i => br.attempt (k + (i - 1))) retry).attempts)]) := by
  simp only [bulkLoop, hid]

/-- The bulk loop processes every device when each has a nukiId: it reaches
the end of the list (no early abort) and appends one outcome per device. -/
theorem bulkLoop_processes_all (br : Bridge) (retry : Nat) :
    ∀ (devices : List Obj) (k : Nat) (acc : List (JVal × Bool × Nat)),
      (∀ d ∈ devices, (dictGet d "nukiId").isSome) →
      (bulkLoop br retry devices k acc).outcome = .completed ∧
      (bulkLoop br retry devices k acc).bulk.length = acc.length + devices.length := by
  intro devices
  induction devices with
  | nil => intro k acc _; exact ⟨rfl, by simp [bulkLoop]⟩
  | cons d rest ih =>
    intro k acc hall
    have hd : (dictGet d "nukiId").isSome := hall d (List.mem_cons_self d rest)
    obtain ⟨id, hid⟩ := Option.isSome_iff_exists.mp hd
    rw [bulkLoop_cons br retry d rest k acc id hid]
    have hres := ih
      (k + (perform_action_with_retry (fun i => br.attempt (k + (i - 1))) retry).attempts)
      (acc ++ [(id,
        (perform_action_with_retry (fun i => br.attempt (k + (i - 1))) retry).success,
        (perform_action_with_retry (fun i => br.attempt (k + (i - 1))) retry).attempts)])
      (fun d2 h2 => hall d2 (List.mem_cons_of_mem d h2))
    refine ⟨hres.1, ?_⟩
    rw [hres.2]
    simp only [List.length_append, List.length_cons, List.length_nil]
    omega

/-- Device 1 of the bulk scenario. -/
def c5dev1 : Obj := [("name", .str "Front"), ("nukiId", .num 11)]

/-- Device 2 of the bulk scenario (the one whose calls always fail). -/
def c5dev2 : Obj := [("name", .str "Mid"), ("nukiId", .num 22)]

/-- Device 3 of the bulk scenario. -/
def c5dev3 : Obj := [("name", .str "Back"), ("nukiId", .num 33)]

/-- The device list of the bulk scenario: three devices with ids 11, 22, 33. -/
def c5devices : List Obj := [c5dev1, c5dev2, c5dev3]

/-- A body the success policy accepts. -/
def c5body : Obj := [("success", .bool true)]

/-- Arguments of the bulk scenario: openall with budget N. -/
def c5args (N : Nat) : Args :=
  ⟨some "192.168.0.2", some "tkn", none, none, some (N : Int), some .openall⟩

/-- Bridge oracle of the bulk scenario: the list fetch returns the three
devices; attempt 0 (device 1) and attempts past N (device 3) succeed, and
attempts 1 .. N (those of device 2) fail at the transport layer. -/
def c5bridge (N : Nat) : Bridge :=
  ⟨.ok c5devices,
   fun k => if k = 0 then .ok c5body else if k ≤ N then .fail else .ok c5body⟩

/-- C5: in a bulk openall, every device gets its own retry-wrapped call and
one outcome is reported per device whatever the earlier outcomes, and in
the concrete three-device scenario where every call of device 2 fails,
devices 1 and 3 report success, device 2 reports exhaustion after N
attempts, and all three are attempted (N + 3 requests in total: the list
fetch, one call each for devices 1 and 3, N for device 2). -/
theorem c5_bulk_independent_processing (N : Nat) (hN : 1 ≤ N) :
    (∀ (br : Bridge) (retry : Nat) (devices : List Obj) (k : Nat)
        (acc : List (JVal × Bool × Nat)),
      (∀ d ∈ devices, (dictGet d "nukiId").isSome) →
      (bulkLoop br retry devices k acc).outcome = .completed ∧
      (bulkLoop br retry devices k acc).bulk.length = acc.length + devices.length) ∧
    (main (c5args N) [] (c5bridge N)).outcome = .completed ∧
    (main (c5args N) [] (c5bridge N)).bulk =
      [(.num 11, true, 1), (.num 22, false, N), (.num 33, true, 1)] ∧
    (main (c5args N) [] (c5bridge N)).calls = N + 3 := by
  refine ⟨fun br retry => bulkLoop_processes_all br retry, ?_⟩
  have hr : (resolveRetry (some (N : Int)) []).toNat = N := by
    have hne : ¬ ((N : Int) = 0) := by
      intro hc
      have : N = 0 := by exact_mod_cast hc
      omega
    simp [resolveRetry, dictGet, hne]
  have hmain : main (c5args N) [] (c5bridge N) =
      bulkLoop (c5bridge N) ((resolveRetry (some (N : Int)) []).toNat)
        [c5dev1, c5dev2, c5dev3] 0 [] := rfl
  have h1 : perform_action_with_retry
      (fun i => (c5bridge N).attempt (0 + (i - 1))) N = ⟨true, some c5body, 1, 0⟩ := by
    rw [perform_action_with_retry]
    exact retryLoop_firstSuccess _ c5body 0 N 1 none (by omega)
      (fun j hj => absurd hj (by omega)) rfl rfl
  have h2 : perform_action_with_retry
      (fun i => (c5bridge N).attempt (1 + (i - 1))) N =
      ⟨false, lastObtained (fun i => (c5bridge N).attempt (1 + (i - 1))) N 1 none,
        N, N⟩ := by
    rw [perform_action_with_retry]
    apply retryLoop_exhaust
    intro j hj1 hj2
    have hidx : 1 + (j - 1) = j := by omega
    show attemptSucceeds ((c5bridge N).attempt (1 + (j - 1))) = false
    rw [hidx]
    have hjne : ¬ (j = 0) := by omega
    have hjle : j ≤ N := by omega
    simp [c5bridge, hjne, hjle, attemptSucceeds]
  have h3 : perform_action_with_retry
      (fun i => (c5bridge N).attempt (1 + N + (i - 1))) N = ⟨true, some c5body, 1, 0⟩ := by
    rw [perform_action_with_retry]
    apply retryLoop_firstSuccess _ c5body 0 N 1 none (by omega)
      (fun j hj => absurd hj (by omega)) ?hok rfl
    show (c5bridge N).attempt (1 + N + (1 - 1)) = .ok c5body
    have e0 : 1 + N + (1 - 1) = 1 + N := by omega
    have e1 : ¬ (1 + N = 0) := by omega
    have e2 : ¬ (1 + N ≤ N) := by omega
    rw [e0]
    simp [c5bridge, e1, e2]
  have s1 : bulkLoop (c5bridge N) N [c5dev1, c5dev2, c5dev3] 0 [] =
      bulkLoop (c5bridge N) N [c5dev2, c5dev3] 1 [(.num 11, true, 1)] := by
    rw [bulkLoop_cons (c5bridge N) N c5dev1 [c5dev2, c5dev3] 0 [] (.num 11) rfl, h1]
    rfl
  have s2 : bulkLoop (c5bridge N) N [c5dev2, c5dev3] 1 [(.num 11, true, 1)] =
      bulkLoop (c5bridge N) N [c5dev3] (1 + N)
        [(.num 11, true, 1), (.num 22, false, N)] := by
    rw [bulkLoop_cons (c5bridge N) N c5dev2 [c5dev3] 1 [(.num 11, true, 1)]
      (.num 22) rfl, h2]
    rfl
  have s3 : bulkLoop (c5bridge N) N [c5dev3] (1 + N)
        [(.num 11, true, 1), (.num 22, false, N)] =
      ⟨.completed, 1 + (1 + N + 1),
        [(.num 11, true, 1), (.num 22, false, N), (.num 33, true, 1)], none⟩ := by
    rw [bulkLoop_cons (c5bridge N) N c5dev3 [] (1 + N)
      [(.num 11, true, 1), (.num 22, false, N)] (.num 33) rfl, h3]
    rfl
  rw [hmain, hr, s1, s2, s3]
  refine ⟨rfl, rfl, ?_⟩
  show 1 + (1 + N + 1) = N + 3
  omega

/-- Witness for C5 at budget 1. -/
theorem c5_bulk_independent_processing_witness :
    (main (c5args 1) [] (c5bridge 1)).bulk =
      [(.num 11, true, 1), (.num 22, false, 1), (.num 33, true, 1)] :=
  (c5_bulk_independent_processing 1 (by decide)).2.2.1

end Nuki3ctl
